import Mathlib

/-!
Verification of the yamlresume location schema
(`packages/core/src/models/schema/content/location.ts`) and its companion
type definitions (`packages/core/src/models/types.ts`).

The schema is a zod `z.object` declaration.  We embed its runtime
validation semantics shallowly: JSON inputs become an inductive `Json`
type, validation becomes a total function into `Except (List Issue)`,
and zod's aggregate error collection (all field issues reported
together, in field declaration order, each scoped by a field path)
becomes explicit list concatenation.

The `primitives` module (`sizedStringSchema`, `countryOptionSchema`,
`COUNTRY_OPTIONS`) is referenced by `location.ts` but its source is not
part of the provided material; those definitions are modelled from the
specification's contract for them (a bounded-length string validator
failing with a length violation naming the field, and a closed
enumerated option set failing with an invalid-choice error).
-/

namespace YamlResume

/-- A JSON-like value, the input domain of zod schema validation.
Absent object keys model `undefined`; `null` is a distinct present value
(zod's `.optional()` accepts absence, not `null`). -/
inductive Json where
  | null : Json
  | bool : Bool → Json
  | num : Int → Json
  | str : String → Json
  | arr : List Json → Json
  | obj : List (String × Json) → Json

/-- First-match key lookup in an object's field list, the semantics of
JavaScript property access used by zod on plain objects. -/
def lookupKey : List (String × Json) → String → Option Json
  | [], _ => none
  | (k, v) :: rest, key => if k = key then some v else lookupKey rest key

/-- The violation kinds of the error taxonomy: length violation,
invalid choice (enum), missing required field, and wrong primitive type. -/
inductive Violation where
  | lengthViolation (lo hi actual : Nat)
  | invalidChoice
  | missingRequired
  | invalidType
deriving DecidableEq, Repr

/-- A field-scoped validation issue: the field path from the root of the
validated input, the violation kind, and a human-readable message. -/
structure Issue where
  path : List String
  violation : Violation
  message : String
deriving DecidableEq, Repr

/-- Scopes a list of issues one object level deeper, under key `k`
(zod prefixes nested issues with the property name). -/
def underKey (k : String) (issues : List Issue) : List Issue :=
  issues.map fun i => ⟨k :: i.path, i.violation, i.message⟩

/-- The message of a length-violation issue; it names the field. -/
def sizedStringMessage (name : String) (lo hi : Nat) : String :=
  name ++ " should be a string between " ++ toString lo ++ " and "
    ++ toString hi ++ " characters long."

/-- Modelled from the spec: `sizedStringSchema(name, min, max)` from the
`primitives` module, whose source is not in the provided material.  A
bounded-length string validator that fails with a length-violation error
naming the field whenever the string's character count falls outside
`[min, max]`, and accepts the string unchanged otherwise. -/
def sizedStringCheck (name : String) (lo hi : Nat) (s : String) :
    Except (List Issue) String :=
  if s.length < lo then
    .error [⟨[name], .lengthViolation lo hi s.length, sizedStringMessage name lo hi⟩]
  else if hi < s.length then
    .error [⟨[name], .lengthViolation lo hi s.length, sizedStringMessage name lo hi⟩]
  else .ok s

/-- Modelled from the spec: the fixed country/region option set
`COUNTRY_OPTIONS` from the `primitives` module, whose source is not in
the provided material.  The spec only fixes that it is a closed
enumerated set of country/region codes containing `"DE"`; a small
representative set suffices for the embedding. -/
def COUNTRY_OPTIONS : List String :=
  ["CN", "DE", "FR", "GB", "JP", "US"]

/-- The message of an invalid-choice issue for the country option set. -/
def countryMessage : String :=
  "country should be one of the recognized country or region options."

/-- Modelled from the spec: `countryOptionSchema` from the `primitives`
module, whose source is not in the provided material.  An
enumerated-option validator that fails with an invalid-choice error when
the value is not a member of the fixed option list. -/
def countryOptionCheck (v : Json) : Except (List Issue) String :=
  match v with
  | Json.str s =>
      if s ∈ COUNTRY_OPTIONS then .ok s
      else .error [⟨[], .invalidChoice, countryMessage⟩]
  | _ => .error [⟨[], .invalidChoice, countryMessage⟩]

instance {ε α : Type} [DecidableEq ε] [DecidableEq α] : DecidableEq (Except ε α)
  | .error e₁, .error e₂ =>
      if h : e₁ = e₂ then .isTrue (by rw [h])
      else .isFalse (by intro hc; cases hc; exact h rfl)
  | .error _, .ok _ => .isFalse (by intro hc; cases hc)
  | .ok _, .error _ => .isFalse (by intro hc; cases hc)
  | .ok a₁, .ok a₂ =>
      if h : a₁ = a₂ then .isTrue (by rw [h])
      else .isFalse (by intro hc; cases hc; exact h rfl)

/-- Applicative combination of two fallible results that accumulates
errors from both sides, in order — zod's aggregate object validation. -/
def combine2 {α β : Type} :
    Except (List Issue) α → Except (List Issue) β → Except (List Issue) (α × β)
  | .error e₁, .error e₂ => .error (e₁ ++ e₂)
  | .error e₁, .ok _ => .error e₁
  | .ok _, .error e₂ => .error e₂
  | .ok a, .ok b => .ok (a, b)

/-- Validation of a required sized-string property of an object: absence
is a missing-required-field error, a non-string value is a type error,
and a string value goes through `sizedStringCheck`. -/
def parseRequiredSized (fl : List (String × Json)) (name : String) (lo hi : Nat) :
    Except (List Issue) String :=
  match lookupKey fl name with
  | none => .error [⟨[name], .missingRequired, name ++ " is required."⟩]
  | some (Json.str s) => sizedStringCheck name lo hi s
  | some _ => .error [⟨[name], .invalidType, name ++ " should be a string."⟩]

/-- Validation of an optional sized-string property of an object:
absence is accepted as `none`, a non-string value is a type error, and a
string value goes through `sizedStringCheck`. -/
def parseOptionalSized (fl : List (String × Json)) (name : String) (lo hi : Nat) :
    Except (List Issue) (Option String) :=
  match lookupKey fl name with
  | none => .ok none
  | some (Json.str s) => (sizedStringCheck name lo hi s).map some
  | some _ => .error [⟨[name], .invalidType, name ++ " should be a string."⟩]

/-- Validation of the optional `country` property of the location
object: absence is accepted, a present value goes through the country
option validator with its issues scoped under `country`. -/
def parseCountry (fl : List (String × Json)) :
    Except (List Issue) (Option String) :=
  match lookupKey fl "country" with
  | none => .ok none
  | some v =>
      match countryOptionCheck v with
      | .ok s => .ok (some s)
      | .error es => .error (underKey "country" es)

/-- The validated shape of the inner `location` object, mirroring the
five properties declared by `locationSchema` in `location.ts`. -/
structure LocationItem where
  city : String
  address : Option String := none
  country : Option String := none
  postalCode : Option String := none
  region : Option String := none
deriving DecidableEq, Repr

/-- The validated shape of the whole `locationSchema` input: an object
whose `location` property is optional. -/
structure Location where
  location : Option LocationItem := none
deriving DecidableEq, Repr

/-- Validation of the inner `location` object of `locationSchema`
(`location.ts` lines 32–42): `city` is a required sized string (2–64),
`address` (4–256), `country` (country option), `postalCode` (2–16) and
`region` (2–64) are optional; issues of all five properties are
collected together in declaration order; unknown keys are ignored and
stripped (zod's default object behavior). -/
def validateLocationItem : Json → Except (List Issue) LocationItem
  | Json.obj fl =>
      (combine2 (parseRequiredSized fl "city" 2 64)
        (combine2 (parseOptionalSized fl "address" 4 256)
          (combine2 (parseCountry fl)
            (combine2 (parseOptionalSized fl "postalCode" 2 16)
              (parseOptionalSized fl "region" 2 64))))).map
        fun x => ⟨x.1, x.2.1, x.2.2.1, x.2.2.2.1, x.2.2.2.2⟩
  | _ => .error [⟨[], .invalidType, "location should be an object."⟩]

/-- Validation of the top-level `locationSchema` (`location.ts` lines
31–44): an object whose `location` property, when present, is validated
by `validateLocationItem` with issues scoped under `location`, and whose
absence is accepted; unknown keys are ignored and stripped. -/
def locationSchemaCheck : Json → Except (List Issue) Location
  | Json.obj fl =>
      match lookupKey fl "location" with
      | none => .ok ⟨none⟩
      | some v =>
          ((validateLocationItem v).mapError (underKey "location")).map
            fun it => ⟨some it⟩
  | _ => .error [⟨[], .invalidType, "input should be an object."⟩]

/-- The bounded string fields of the location schema with their declared
bounds, as passed to `sizedStringSchema` in `location.ts`. -/
def locationBoundedFields : List (String × Nat × Nat) :=
  [("city", 2, 64), ("address", 4, 256), ("postalCode", 2, 16), ("region", 2, 64)]

/-- The property keys declared by the inner `location` object schema. -/
def locationDeclaredKeys : List String :=
  ["city", "address", "country", "postalCode", "region"]

/-- Serialization of a present optional string field back to an object
entry; an absent field contributes no entry. -/
def optEntry (k : String) : Option String → List (String × Json)
  | none => []
  | some s => [(k, Json.str s)]

/-- The object field list a validated `LocationItem` corresponds to:
exactly the declared fields that are present. -/
def LocationItem.toFields (it : LocationItem) : List (String × Json) :=
  ("city", Json.str it.city) :: (optEntry "address" it.address
    ++ optEntry "country" it.country ++ optEntry "postalCode" it.postalCode
    ++ optEntry "region" it.region)

/-- The JSON object a validated `LocationItem` corresponds to. -/
def LocationItem.toJson (it : LocationItem) : Json :=
  Json.obj it.toFields

/-- The JSON object a validated `Location` corresponds to. -/
def Location.toJson : Location → Json
  | ⟨none⟩ => Json.obj []
  | ⟨some it⟩ => Json.obj [("location", it.toJson)]

/-- The constraints the location schema enforces, stated on the
validated output shape. -/
def LocationItem.valid (it : LocationItem) : Prop :=
  (2 ≤ it.city.length ∧ it.city.length ≤ 64) ∧
  (∀ s, it.address = some s → 4 ≤ s.length ∧ s.length ≤ 256) ∧
  (∀ s, it.country = some s → s ∈ COUNTRY_OPTIONS) ∧
  (∀ s, it.postalCode = some s → 2 ≤ s.length ∧ s.length ≤ 16) ∧
  (∀ s, it.region = some s → 2 ≤ s.length ∧ s.length ≤ 64)

/-- Spec contract for a required bounded string field: present, a
string, and of length within the declared bounds. -/
def requiredSizedContract (il : List (String × Json)) (nm : String) (lo hi : Nat) : Prop :=
  ∃ s, lookupKey il nm = some (Json.str s) ∧ lo ≤ s.length ∧ s.length ≤ hi

/-- Spec contract for an optional bounded string field: absent, or a
string of length within the declared bounds. -/
def optionalSizedContract (il : List (String × Json)) (nm : String) (lo hi : Nat) : Prop :=
  lookupKey il nm = none ∨
    ∃ s, lookupKey il nm = some (Json.str s) ∧ lo ≤ s.length ∧ s.length ≤ hi

/-- Spec contract for the optional `country` field: absent, or a
recognized country/region option. -/
def countryContract (il : List (String × Json)) : Prop :=
  lookupKey il "country" = none ∨
    ∃ s, lookupKey il "country" = some (Json.str s) ∧ s ∈ COUNTRY_OPTIONS

/-- Spec contract for the inner `location` object, following the spec's
words: it is an object whose `city` is a required 2–64 string and whose
`address` (4–256), `country` (recognized option), `postalCode` (2–16)
and `region` (2–64) are optional. -/
def locationItemContract : Json → Prop
  | Json.obj il =>
      requiredSizedContract il "city" 2 64 ∧
      optionalSizedContract il "address" 4 256 ∧
      countryContract il ∧
      optionalSizedContract il "postalCode" 2 16 ∧
      optionalSizedContract il "region" 2 64
  | _ => False

/-- Spec contract for the whole location section, following the spec's
words: the input is an object, `location` may be absent, and when
present it must satisfy the inner location contract. -/
def locationContract : Json → Prop
  | Json.obj tl =>
      match lookupKey tl "location" with
      | none => True
      | some v => locationItemContract v
  | _ => False

/-- Membership of a JSON value in the country option set: only strings
can be members. -/
def jsonCountryMember : Json → Bool
  | Json.str s => decide (s ∈ COUNTRY_OPTIONS)
  | _ => false

/-- The fields validated by `locationSchema` in `location.ts`, paired
with whether each is required, in declaration order. -/
def locationSchemaFieldList : List (String × Bool) :=
  [("city", true), ("address", false), ("country", false),
    ("postalCode", false), ("region", false)]

/-- The base fields of the `LocationItem` type in `types.ts` (lines
316–338), paired with whether each is required (not marked `?`), in
declaration order; the `computed` sub-object is kept separate. -/
def locationItemTypeFieldList : List (String × Bool) :=
  [("city", true), ("address", false), ("country", false),
    ("postalCode", false), ("region", false)]

/-- The fields of the `computed` sub-object of the `LocationItem` type
in `types.ts`. -/
def locationItemComputedFieldList : List String :=
  ["postalCodeAndAddress", "regionAndCountry", "fullAddress"]

/-- Whether the `computed` sub-object of `LocationItem` is optional in
`types.ts` (it is marked `computed?`). -/
def locationItemComputedIsOptional : Bool := true

lemma sizedStringCheck_eq_ok (nm : String) (lo hi : Nat) (s t : String) :
    sizedStringCheck nm lo hi s = .ok t ↔ t = s ∧ lo ≤ s.length ∧ s.length ≤ hi := by
  unfold sizedStringCheck
  split_ifs with h1 h2
  · simp
    rintro rfl
    omega
  · simp
    rintro rfl
    omega
  · simp
    constructor
    · rintro rfl
      exact ⟨rfl, by omega, by omega⟩
    · rintro ⟨rfl, -, -⟩
      rfl

lemma parseRequiredSized_eq_ok (fl : List (String × Json)) (nm : String)
    (lo hi : Nat) (t : String) :
    parseRequiredSized fl nm lo hi = .ok t ↔
      lookupKey fl nm = some (Json.str t) ∧ lo ≤ t.length ∧ t.length ≤ hi := by
  unfold parseRequiredSized
  cases h : lookupKey fl nm with
  | none => simp
  | some v =>
      cases v <;> simp [sizedStringCheck_eq_ok]
      constructor
      · rintro ⟨rfl, h⟩
        exact ⟨rfl, h⟩
      · rintro ⟨rfl, h⟩
        exact ⟨rfl, h⟩

lemma except_map_eq_ok {α β : Type} (f : α → β) (x : Except (List Issue) α) (b : β) :
    x.map f = .ok b ↔ ∃ a, x = .ok a ∧ b = f a := by
  cases x <;> simp [Except.map, eq_comm]

lemma parseOptionalSized_eq_ok (fl : List (String × Json)) (nm : String)
    (lo hi : Nat) (o : Option String) :
    parseOptionalSized fl nm lo hi = .ok o ↔
      (o = none ∧ lookupKey fl nm = none) ∨
      (∃ s, o = some s ∧ lookupKey fl nm = some (Json.str s) ∧
        lo ≤ s.length ∧ s.length ≤ hi) := by
  unfold parseOptionalSized
  cases h : lookupKey fl nm with
  | none => cases o <;> simp
  | some v =>
      cases v <;> simp [except_map_eq_ok, sizedStringCheck_eq_ok]
      case str s => aesop

lemma parseCountry_eq_ok (fl : List (String × Json)) (o : Option String) :
    parseCountry fl = .ok o ↔
      (o = none ∧ lookupKey fl "country" = none) ∨
      (∃ s, o = some s ∧ lookupKey fl "country" = some (Json.str s) ∧
        s ∈ COUNTRY_OPTIONS) := by
  unfold parseCountry countryOptionCheck
  cases h : lookupKey fl "country" with
  | none => cases o <;> simp
  | some v =>
      cases v <;> simp
      case str s =>
        split_ifs with hm
        · simp
          aesop
        · simp
          aesop

lemma combine2_eq_ok {α β : Type} (x : Except (List Issue) α)
    (y : Except (List Issue) β) (a : α) (b : β) :
    combine2 x y = .ok (a, b) ↔ x = .ok a ∧ y = .ok b := by
  cases x <;> cases y <;> simp [combine2]

lemma validateLocationItem_eq_ok (fl : List (String × Json)) (it : LocationItem) :
    validateLocationItem (Json.obj fl) = .ok it ↔
      parseRequiredSized fl "city" 2 64 = .ok it.city ∧
      parseOptionalSized fl "address" 4 256 = .ok it.address ∧
      parseCountry fl = .ok it.country ∧
      parseOptionalSized fl "postalCode" 2 16 = .ok it.postalCode ∧
      parseOptionalSized fl "region" 2 64 = .ok it.region := by
  obtain ⟨c, a, co, p, r⟩ := it
  simp only [validateLocationItem, except_map_eq_ok]
  constructor
  · rintro ⟨⟨c₁, a₁, co₁, p₁, r₁⟩, hc, heq⟩
    rw [combine2_eq_ok, combine2_eq_ok, combine2_eq_ok, combine2_eq_ok] at hc
    simp only [LocationItem.mk.injEq] at heq
    obtain ⟨rfl, rfl, rfl, rfl, rfl⟩ := heq
    exact hc
  · rintro ⟨h₁, h₂, h₃, h₄, h₅⟩
    refine ⟨(c, a, co, p, r), ?_, rfl⟩
    rw [combine2_eq_ok, combine2_eq_ok, combine2_eq_ok, combine2_eq_ok]
    exact ⟨h₁, h₂, h₃, h₄, h₅⟩

lemma except_isOk_iff {α : Type} (x : Except (List Issue) α) :
    x.isOk = true ↔ ∃ a, x = .ok a := by
  cases x <;> simp [Except.isOk, Except.toBool]

lemma parseRequiredSized_ok_iff (il : List (String × Json)) (nm : String) (lo hi : Nat) :
    (∃ s, parseRequiredSized il nm lo hi = .ok s) ↔ requiredSizedContract il nm lo hi := by
  constructor
  · rintro ⟨s, h⟩
    rw [parseRequiredSized_eq_ok] at h
    exact ⟨s, h⟩
  · rintro ⟨s, hl, hb⟩
    exact ⟨s, by rw [parseRequiredSized_eq_ok]; exact ⟨hl, hb⟩⟩

lemma parseOptionalSized_ok_iff (il : List (String × Json)) (nm : String) (lo hi : Nat) :
    (∃ o, parseOptionalSized il nm lo hi = .ok o) ↔ optionalSizedContract il nm lo hi := by
  constructor
  · rintro ⟨o, h⟩
    rw [parseOptionalSized_eq_ok] at h
    rcases h with ⟨rfl, hn⟩ | ⟨s, rfl, hl, hb⟩
    · exact .inl hn
    · exact .inr ⟨s, hl, hb⟩
  · rintro (hn | ⟨s, hl, hb⟩)
    · exact ⟨none, by rw [parseOptionalSized_eq_ok]; exact .inl ⟨rfl, hn⟩⟩
    · exact ⟨some s, by rw [parseOptionalSized_eq_ok]; exact .inr ⟨s, rfl, hl, hb⟩⟩

lemma parseCountry_ok_iff (il : List (String × Json)) :
    (∃ o, parseCountry il = .ok o) ↔ countryContract il := by
  constructor
  · rintro ⟨o, h⟩
    rw [parseCountry_eq_ok] at h
    rcases h with ⟨rfl, hn⟩ | ⟨s, rfl, hl, hm⟩
    · exact .inl hn
    · exact .inr ⟨s, hl, hm⟩
  · rintro (hn | ⟨s, hl, hm⟩)
    · exact ⟨none, by rw [parseCountry_eq_ok]; exact .inl ⟨rfl, hn⟩⟩
    · exact ⟨some s, by rw [parseCountry_eq_ok]; exact .inr ⟨s, rfl, hl, hm⟩⟩

lemma validateLocationItem_isOk_iff (v : Json) :
    (validateLocationItem v).isOk = true ↔ locationItemContract v := by
  cases v with
  | null => simp [validateLocationItem, locationItemContract, except_isOk_iff]
  | bool b => simp [validateLocationItem, locationItemContract, except_isOk_iff]
  | num n => simp [validateLocationItem, locationItemContract, except_isOk_iff]
  | str s => simp [validateLocationItem, locationItemContract, except_isOk_iff]
  | arr xs => simp [validateLocationItem, locationItemContract, except_isOk_iff]
  | obj il =>
    rw [except_isOk_iff]
    simp only [locationItemContract]
    constructor
    · rintro ⟨it, h⟩
      rw [validateLocationItem_eq_ok] at h
      obtain ⟨h₁, h₂, h₃, h₄, h₅⟩ := h
      exact ⟨(parseRequiredSized_ok_iff il "city" 2 64).mp ⟨_, h₁⟩,
        (parseOptionalSized_ok_iff il "address" 4 256).mp ⟨_, h₂⟩,
        (parseCountry_ok_iff il).mp ⟨_, h₃⟩,
        (parseOptionalSized_ok_iff il "postalCode" 2 16).mp ⟨_, h₄⟩,
        (parseOptionalSized_ok_iff il "region" 2 64).mp ⟨_, h₅⟩⟩
    · rintro ⟨hc, ha, hco, hp, hr⟩
      obtain ⟨c, h₁⟩ := (parseRequiredSized_ok_iff il "city" 2 64).mpr hc
      obtain ⟨a, h₂⟩ := (parseOptionalSized_ok_iff il "address" 4 256).mpr ha
      obtain ⟨co, h₃⟩ := (parseCountry_ok_iff il).mpr hco
      obtain ⟨p, h₄⟩ := (parseOptionalSized_ok_iff il "postalCode" 2 16).mpr hp
      obtain ⟨r, h₅⟩ := (parseOptionalSized_ok_iff il "region" 2 64).mpr hr
      exact ⟨⟨c, a, co, p, r⟩,
        (validateLocationItem_eq_ok il ⟨c, a, co, p, r⟩).mpr ⟨h₁, h₂, h₃, h₄, h₅⟩⟩

lemma except_mapError_eq_ok {α : Type} (f : List Issue → List Issue)
    (x : Except (List Issue) α) (a : α) :
    x.mapError f = .ok a ↔ x = .ok a := by
  cases x <;> simp [Except.mapError]

lemma locationSchemaCheck_obj_eq_ok (tl : List (String × Json)) (out : Location) :
    locationSchemaCheck (Json.obj tl) = .ok out ↔
      (out = ⟨none⟩ ∧ lookupKey tl "location" = none) ∨
      (∃ v it, out = ⟨some it⟩ ∧ lookupKey tl "location" = some v ∧
        validateLocationItem v = .ok it) := by
  simp only [locationSchemaCheck]
  cases h : lookupKey tl "location" with
  | none =>
      simp only [Except.ok.injEq]
      constructor
      · rintro rfl
        exact .inl ⟨rfl, by trivial⟩
      · rintro (⟨rfl, -⟩ | ⟨v, it, rfl, hs, -⟩)
        · rfl
        · exact absurd hs (by simp)
  | some v =>
      rw [except_map_eq_ok]
      constructor
      · rintro ⟨it, hx, rfl⟩
        rw [except_mapError_eq_ok] at hx
        exact .inr ⟨v, it, rfl, rfl, hx⟩
      · rintro (⟨rfl, hs⟩ | ⟨v₁, it₁, rfl, hs, hv₁⟩)
        · exact absurd hs (by simp)
        · obtain rfl : v = v₁ := by injection hs
          exact ⟨it₁, by rw [except_mapError_eq_ok]; exact hv₁, rfl⟩

lemma lookup_toFields_city (it : LocationItem) :
    lookupKey it.toFields "city" = some (Json.str it.city) := by
  simp [LocationItem.toFields, lookupKey]

lemma lookup_toFields_address (it : LocationItem) :
    lookupKey it.toFields "address" = it.address.map Json.str := by
  obtain ⟨c, a, co, p, r⟩ := it
  cases a <;> cases co <;> cases p <;> cases r <;>
    simp [LocationItem.toFields, optEntry, lookupKey]

lemma lookup_toFields_country (it : LocationItem) :
    lookupKey it.toFields "country" = it.country.map Json.str := by
  obtain ⟨c, a, co, p, r⟩ := it
  cases a <;> cases co <;> cases p <;> cases r <;>
    simp [LocationItem.toFields, optEntry, lookupKey]

lemma lookup_toFields_postalCode (it : LocationItem) :
    lookupKey it.toFields "postalCode" = it.postalCode.map Json.str := by
  obtain ⟨c, a, co, p, r⟩ := it
  cases a <;> cases co <;> cases p <;> cases r <;>
    simp [LocationItem.toFields, optEntry, lookupKey]

lemma lookup_toFields_region (it : LocationItem) :
    lookupKey it.toFields "region" = it.region.map Json.str := by
  obtain ⟨c, a, co, p, r⟩ := it
  cases a <;> cases co <;> cases p <;> cases r <;>
    simp [LocationItem.toFields, optEntry, lookupKey]

lemma validateLocationItem_ok_valid (v : Json) (it : LocationItem)
    (h : validateLocationItem v = .ok it) : it.valid := by
  cases v with
  | obj il =>
      rw [validateLocationItem_eq_ok] at h
      obtain ⟨h₁, h₂, h₃, h₄, h₅⟩ := h
      rw [parseRequiredSized_eq_ok] at h₁
      rw [parseOptionalSized_eq_ok] at h₂ h₄ h₅
      rw [parseCountry_eq_ok] at h₃
      refine ⟨⟨h₁.2.1, h₁.2.2⟩, ?_, ?_, ?_, ?_⟩
      · rcases h₂ with ⟨ha, -⟩ | ⟨s, ha, -, hb⟩ <;> intro t ht <;> rw [ha] at ht
        · cases ht
        · cases ht
          exact hb
      · rcases h₃ with ⟨ha, -⟩ | ⟨s, ha, -, hb⟩ <;> intro t ht <;> rw [ha] at ht
        · cases ht
        · cases ht
          exact hb
      · rcases h₄ with ⟨ha, -⟩ | ⟨s, ha, -, hb⟩ <;> intro t ht <;> rw [ha] at ht
        · cases ht
        · cases ht
          exact hb
      · rcases h₅ with ⟨ha, -⟩ | ⟨s, ha, -, hb⟩ <;> intro t ht <;> rw [ha] at ht
        · cases ht
        · cases ht
          exact hb
  | null => cases h
  | bool b => cases h
  | num n => cases h
  | str s => cases h
  | arr xs => cases h

lemma validateLocationItem_toJson (it : LocationItem) (h : it.valid) :
    validateLocationItem it.toJson = .ok it := by
  obtain ⟨hc, ha, hco, hp, hr⟩ := h
  rw [LocationItem.toJson, validateLocationItem_eq_ok]
  refine ⟨?_, ?_, ?_, ?_, ?_⟩
  · rw [parseRequiredSized_eq_ok]
    exact ⟨lookup_toFields_city it, hc⟩
  · rw [parseOptionalSized_eq_ok]
    cases hx : it.address with
    | none => exact .inl ⟨rfl, by rw [lookup_toFields_address, hx]; rfl⟩
    | some s =>
        exact .inr ⟨s, rfl, by rw [lookup_toFields_address, hx]; rfl, ha s hx⟩
  · rw [parseCountry_eq_ok]
    cases hx : it.country with
    | none => exact .inl ⟨rfl, by rw [lookup_toFields_country, hx]; rfl⟩
    | some s =>
        exact .inr ⟨s, rfl, by rw [lookup_toFields_country, hx]; rfl, hco s hx⟩
  · rw [parseOptionalSized_eq_ok]
    cases hx : it.postalCode with
    | none => exact .inl ⟨rfl, by rw [lookup_toFields_postalCode, hx]; rfl⟩
    | some s =>
        exact .inr ⟨s, rfl, by rw [lookup_toFields_postalCode, hx]; rfl, hp s hx⟩
  · rw [parseOptionalSized_eq_ok]
    cases hx : it.region with
    | none => exact .inl ⟨rfl, by rw [lookup_toFields_region, hx]; rfl⟩
    | some s =>
        exact .inr ⟨s, rfl, by rw [lookup_toFields_region, hx]; rfl, hr s hx⟩

lemma except_map_isOk {α β : Type} (f : α → β) (x : Except (List Issue) α) :
    (x.map f).isOk = x.isOk := by
  cases x <;> rfl

lemma except_mapError_isOk {α : Type} (f : List Issue → List Issue)
    (x : Except (List Issue) α) :
    (x.mapError f).isOk = x.isOk := by
  cases x <;> rfl

lemma combine2_error_left {α β : Type} (e₁ : List Issue)
    (y : Except (List Issue) β) :
    ∃ rest, combine2 (Except.error e₁ : Except (List Issue) α) y
      = .error (e₁ ++ rest) := by
  cases y with
  | ok b => exact ⟨[], by simp [combine2]⟩
  | error e₂ => exact ⟨e₂, rfl⟩

/-- Claim C1: the location schema accepts an input whose `location` key
is absent; when `location` is present it requires `city` to be a string
of 2 to 64 characters, while `address` (4–256), `country` (a recognized
country/region option), `postalCode` (2–16) and `region` (2–64) are
each optional; any input violating one of these constraints is
rejected.  Stated as: validation succeeds exactly on the inputs
satisfying the spec's contract. -/
theorem locationSchema_accepts_iff_contract (j : Json) :
    (locationSchemaCheck j).isOk = true ↔ locationContract j := by
  cases j with
  | null => simp [locationSchemaCheck, locationContract, Except.isOk, Except.toBool]
  | bool b => simp [locationSchemaCheck, locationContract, Except.isOk, Except.toBool]
  | num n => simp [locationSchemaCheck, locationContract, Except.isOk, Except.toBool]
  | str s => simp [locationSchemaCheck, locationContract, Except.isOk, Except.toBool]
  | arr xs => simp [locationSchemaCheck, locationContract, Except.isOk, Except.toBool]
  | obj tl =>
      cases h : lookupKey tl "location" with
      | none => simp [locationSchemaCheck, locationContract, h, Except.isOk, Except.toBool]
      | some v =>
          have hl : (locationSchemaCheck (Json.obj tl)).isOk
              = (validateLocationItem v).isOk := by
            simp only [locationSchemaCheck, h]
            rw [except_map_isOk, except_mapError_isOk]
          have hr : locationContract (Json.obj tl) = locationItemContract v := by
            simp [locationContract, h]
          rw [hl, hr, validateLocationItem_isOk_iff]

/-- Claim C1 witness: the contract characterization applied to the
spec's positive example. -/
theorem locationSchema_accepts_iff_contract_witness :
    (locationSchemaCheck (Json.obj [("location",
        Json.obj [("city", Json.str "Berlin"), ("country", Json.str "DE")])])).isOk
      = true ↔
      locationContract (Json.obj [("location",
        Json.obj [("city", Json.str "Berlin"), ("country", Json.str "DE")])]) :=
  locationSchema_accepts_iff_contract
    (Json.obj [("location",
      Json.obj [("city", Json.str "Berlin"), ("country", Json.str "DE")])])

/-- Claim C2: for every bounded string field of the location schema
(city [2,64], address [4,256], postalCode [2,16], region [2,64]) and
every string `s`: if the length of `s` is below the minimum or above the
maximum, validating that field fails with a length-violation error
naming that field (the issue's path is the field name and its message is
built from it); if the length is within bounds, validating that field
alone succeeds. -/
theorem sizedString_field_bounds (nm : String) (lo hi : Nat)
    (hf : (nm, lo, hi) ∈ locationBoundedFields) (s : String) :
    ((s.length < lo ∨ hi < s.length) →
      sizedStringCheck nm lo hi s =
        .error [⟨[nm], .lengthViolation lo hi s.length, sizedStringMessage nm lo hi⟩]) ∧
    (lo ≤ s.length → s.length ≤ hi → sizedStringCheck nm lo hi s = .ok s) := by
  constructor
  · intro hout
    unfold sizedStringCheck
    rcases hout with hlt | hgt
    · rw [if_pos hlt]
    · by_cases hlt2 : s.length < lo
      · rw [if_pos hlt2]
      · rw [if_neg hlt2, if_pos hgt]
  · intro h₁ h₂
    unfold sizedStringCheck
    rw [if_neg (by omega), if_neg (by omega)]

/-- Claim C2 witness: the city field at a too-short and at an in-bounds
string. -/
theorem sizedString_field_bounds_witness :
    sizedStringCheck "city" 2 64 "B" =
      .error [⟨["city"], .lengthViolation 2 64 1, sizedStringMessage "city" 2 64⟩] ∧
    sizedStringCheck "city" 2 64 "Berlin" = .ok "Berlin" :=
  ⟨(sizedString_field_bounds "city" 2 64 (by decide) "B").1 (by decide),
    (sizedString_field_bounds "city" 2 64 (by decide) "Berlin").2
      (by decide) (by decide)⟩

/-- Claim C3: for every value `v` supplied as `location.country`, if `v`
is not a member of the fixed country/region option set, validating the
field fails with an invalid-choice error, and if `v` is a member (hence
a string of the set), validating the field succeeds. -/
theorem countryOption_membership (v : Json) :
    (jsonCountryMember v = false →
      ∀ il, lookupKey il "country" = some v →
        parseCountry il =
          .error [⟨["country"], .invalidChoice, countryMessage⟩]) ∧
    (∀ s, v = Json.str s → s ∈ COUNTRY_OPTIONS →
      ∀ il, lookupKey il "country" = some v → parseCountry il = .ok (some s)) := by
  constructor
  · intro hm il hl
    unfold parseCountry
    rw [hl]
    cases v with
    | str s =>
        simp only [jsonCountryMember, decide_eq_false_iff_not] at hm
        simp only [countryOptionCheck, if_neg hm]
        rfl
    | null => rfl
    | bool b => rfl
    | num n => rfl
    | arr xs => rfl
    | obj fl => rfl
  · rintro s rfl hm il hl
    unfold parseCountry
    rw [hl]
    simp only [countryOptionCheck, if_pos hm]

/-- Claim C3 witness: a non-member value is rejected with
invalid-choice and a member value is accepted. -/
theorem countryOption_membership_witness :
    parseCountry [("country", Json.str "Atlantis")] =
      .error [⟨["country"], .invalidChoice, countryMessage⟩] ∧
    parseCountry [("country", Json.str "DE")] = .ok (some "DE") :=
  ⟨(countryOption_membership (Json.str "Atlantis")).1 (by decide) _ rfl,
    (countryOption_membership (Json.str "DE")).2 "DE" rfl (by decide) _ rfl⟩

/-- Claim C4: validating an input that omits `location` entirely
succeeds, while validating an input whose `location` object omits
`city` but provides another declared location field fails with a
missing-required-field error for `city`. -/
theorem locationSchema_city_required :
    locationSchemaCheck (Json.obj []) = .ok ⟨none⟩ ∧
    ∀ tl il, lookupKey tl "location" = some (Json.obj il) →
      lookupKey il "city" = none →
      (∃ k, k ∈ locationDeclaredKeys ∧ k ≠ "city" ∧ (lookupKey il k).isSome = true) →
      ∃ es, locationSchemaCheck (Json.obj tl) = .error es ∧
        (⟨["location", "city"], .missingRequired, "city is required."⟩ : Issue) ∈ es := by
  constructor
  · rfl
  · intro tl il htl hcity hother
    have hpr : parseRequiredSized il "city" 2 64 =
        .error [⟨["city"], .missingRequired, "city is required."⟩] := by
      unfold parseRequiredSized
      rw [hcity]
      rfl
    obtain ⟨rest, hcomb⟩ :=
      combine2_error_left (α := String)
        [(⟨["city"], .missingRequired, "city is required."⟩ : Issue)]
        (combine2 (parseOptionalSized il "address" 4 256)
          (combine2 (parseCountry il)
            (combine2 (parseOptionalSized il "postalCode" 2 16)
              (parseOptionalSized il "region" 2 64))))
    have hv : validateLocationItem (Json.obj il) =
        .error (⟨["city"], .missingRequired, "city is required."⟩ :: rest) := by
      simp only [validateLocationItem, hpr, hcomb]
      rfl
    refine ⟨underKey "location"
      (⟨["city"], .missingRequired, "city is required."⟩ :: rest), ?_, ?_⟩
    · simp only [locationSchemaCheck, htl, hv]
      rfl
    · simp [underKey]

/-- Claim C4 witness: the empty input is accepted, and an input whose
location provides only `address` is rejected with a missing-`city`
issue. -/
theorem locationSchema_city_required_witness :
    ∃ es, locationSchemaCheck
        (Json.obj [("location", Json.obj [("address", Json.str "Karlsplatz 1")])])
      = .error es ∧
      (⟨["location", "city"], .missingRequired, "city is required."⟩ : Issue) ∈ es :=
  locationSchema_city_required.2
    [("location", Json.obj [("address", Json.str "Karlsplatz 1")])]
    [("address", Json.str "Karlsplatz 1")] rfl rfl
    ⟨"address", by decide, by decide, rfl⟩

/-- Claim C5: validation of the location schema is idempotent — for
every input that validates successfully, re-validating the validated
output (as the JSON object carrying exactly its present fields) yields
success with the identical result. -/
theorem locationSchema_idempotent (j : Json) (out : Location)
    (h : locationSchemaCheck j = .ok out) :
    locationSchemaCheck out.toJson = .ok out := by
  cases j with
  | obj tl =>
      rw [locationSchemaCheck_obj_eq_ok] at h
      rcases h with ⟨rfl, -⟩ | ⟨v, it, rfl, -, hv⟩
      · rfl
      · have hvalid := validateLocationItem_ok_valid v it hv
        have hok := validateLocationItem_toJson it hvalid
        show locationSchemaCheck (Json.obj [("location", it.toJson)]) = .ok ⟨some it⟩
        have hl : lookupKey [("location", it.toJson)] "location" = some it.toJson := by
          simp [lookupKey]
        simp only [locationSchemaCheck, hl, hok]
        rfl
  | null => simp [locationSchemaCheck] at h
  | bool b => simp [locationSchemaCheck] at h
  | num n => simp [locationSchemaCheck] at h
  | str s => simp [locationSchemaCheck] at h
  | arr xs => simp [locationSchemaCheck] at h

/-- Claim C5 witness: re-validating the output validated from the spec's
positive example succeeds with the identical result. -/
theorem locationSchema_idempotent_witness :
    locationSchemaCheck
        (Location.mk (some ⟨"Berlin", none, some "DE", none, none⟩)).toJson
      = .ok ⟨some ⟨"Berlin", none, some "DE", none, none⟩⟩ :=
  locationSchema_idempotent
    (Json.obj [("location",
      Json.obj [("city", Json.str "Berlin"), ("country", Json.str "DE")])])
    ⟨some ⟨"Berlin", none, some "DE", none, none⟩⟩ (by decide)

/-- Claim C6: when an input violates several field constraints at once,
validation reports all violations together as a structured list of
field-scoped issues rather than stopping at the first failure — in
particular, `{ location: { address: "123" } }` fails with both a
missing-required-field issue for `city` and a length-violation issue for
`address` below its minimum length 4, in one list. -/
theorem locationSchema_reports_all_errors :
    locationSchemaCheck
        (Json.obj [("location", Json.obj [("address", Json.str "123")])]) =
      .error [⟨["location", "city"], .missingRequired, "city is required."⟩,
        ⟨["location", "address"], .lengthViolation 4 256 3,
          sizedStringMessage "address" 4 256⟩] := by
  decide

/-- Claim C7: `{ location: { city: "Berlin", country: "DE" } }`
validates successfully, and `{ location: { city: "B" } }` fails because
`city` is below the minimum length 2. -/
theorem locationSchema_spec_examples :
    locationSchemaCheck (Json.obj [("location",
        Json.obj [("city", Json.str "Berlin"), ("country", Json.str "DE")])]) =
      .ok ⟨some ⟨"Berlin", none, some "DE", none, none⟩⟩ ∧
    locationSchemaCheck (Json.obj [("location", Json.obj [("city", Json.str "B")])]) =
      .error [⟨["location", "city"], .lengthViolation 2 64 1,
        sizedStringMessage "city" 2 64⟩] := by
  decide

/-- Claim C8: location-schema validation is pure and deterministic — it
is a total function of its input, so two runs on equal inputs produce
equal results (same accept/reject outcome, same output or error list). -/
theorem locationSchema_deterministic (j₁ j₂ : Json) (h : j₁ = j₂) :
    locationSchemaCheck j₁ = locationSchemaCheck j₂ := by
  rw [h]

/-- Claim C8 witness: two runs on the same concrete input agree. -/
theorem locationSchema_deterministic_witness :
    locationSchemaCheck (Json.obj [("location", Json.obj [("city", Json.str "Berlin")])])
      = locationSchemaCheck
          (Json.obj [("location", Json.obj [("city", Json.str "Berlin")])]) :=
  locationSchema_deterministic
    (Json.obj [("location", Json.obj [("city", Json.str "Berlin")])])
    (Json.obj [("location", Json.obj [("city", Json.str "Berlin")])]) rfl

/-- Claim C9: the runtime schema and the static type for the location
section correspond exactly — the schema's validated fields equal the
`LocationItem` type's base fields with matching optionality (in order),
the `computed` sub-object exists only in the type and is optional, and
its fields only add names without replacing any base field. -/
theorem locationSchema_type_agreement :
    locationSchemaFieldList = locationItemTypeFieldList ∧
    locationItemComputedIsOptional = true ∧
    locationItemComputedFieldList.all
      (fun f => !(locationItemTypeFieldList.map Prod.fst).contains f) = true := by
  decide

/-- Claim C10: keys not declared by the location schema never cause a
failure — at the top level the result depends only on the `location`
key (whether that key is absent or present, so undeclared keys alongside
a present `location` object change nothing), an absent `location` gives
the empty result, inside the `location` object only the five declared
keys matter, and the successful output (being a `Location` value)
carries only declared fields; in particular `{ city: "Berlin" }`
(location fields not nested under `location`) succeeds with no location
data. -/
theorem locationSchema_ignores_unknown_keys :
    (∀ tl₁ tl₂, lookupKey tl₁ "location" = lookupKey tl₂ "location" →
      locationSchemaCheck (Json.obj tl₁) = locationSchemaCheck (Json.obj tl₂)) ∧
    (∀ tl, lookupKey tl "location" = none →
      locationSchemaCheck (Json.obj tl) = .ok ⟨none⟩) ∧
    (∀ il₁ il₂,
      (∀ k, k ∈ locationDeclaredKeys → lookupKey il₁ k = lookupKey il₂ k) →
      validateLocationItem (Json.obj il₁) = validateLocationItem (Json.obj il₂)) ∧
    locationSchemaCheck (Json.obj [("city", Json.str "Berlin")]) = .ok ⟨none⟩ := by
  refine ⟨?_, ?_, ?_, by decide⟩
  · intro tl₁ tl₂ h
    simp only [locationSchemaCheck, h]
  · intro tl h
    simp only [locationSchemaCheck, h]
  · intro il₁ il₂ h
    have e₁ : parseRequiredSized il₁ "city" 2 64
        = parseRequiredSized il₂ "city" 2 64 := by
      unfold parseRequiredSized
      rw [h "city" (by decide)]
    have e₂ : parseOptionalSized il₁ "address" 4 256
        = parseOptionalSized il₂ "address" 4 256 := by
      unfold parseOptionalSized
      rw [h "address" (by decide)]
    have e₃ : parseCountry il₁ = parseCountry il₂ := by
      unfold parseCountry
      rw [h "country" (by decide)]
    have e₄ : parseOptionalSized il₁ "postalCode" 2 16
        = parseOptionalSized il₂ "postalCode" 2 16 := by
      unfold parseOptionalSized
      rw [h "postalCode" (by decide)]
    have e₅ : parseOptionalSized il₁ "region" 2 64
        = parseOptionalSized il₂ "region" 2 64 := by
      unfold parseOptionalSized
      rw [h "region" (by decide)]
    simp only [validateLocationItem, e₁, e₂, e₃, e₄, e₅]

/-- Claim C10 witness: an undeclared top-level key alongside a present
`location` object does not change the result, and an object with only
an undeclared key validates to the empty location result. -/
theorem locationSchema_ignores_unknown_keys_witness :
    locationSchemaCheck (Json.obj [("junk", Json.num 1),
        ("location", Json.obj [("city", Json.str "Berlin")])])
      = locationSchemaCheck
          (Json.obj [("location", Json.obj [("city", Json.str "Berlin")])]) ∧
    locationSchemaCheck (Json.obj [("unknown", Json.null)]) = .ok ⟨none⟩ :=
  ⟨locationSchema_ignores_unknown_keys.1
      [("junk", Json.num 1), ("location", Json.obj [("city", Json.str "Berlin")])]
      [("location", Json.obj [("city", Json.str "Berlin")])] rfl,
    locationSchema_ignores_unknown_keys.2.1 [("unknown", Json.null)] rfl⟩

end YamlResume
